import Mathlib

/-!
Shallow embedding of the `infra-nextjs-strapi` repository: two AWS CDK
stacks (`StrapiStack` in `lib/strapi.ts`, `NextjsStack` in `lib/nextjs.ts`)
and the entry point `bin/infra-sample.ts`.  The repository is declarative
resource composition; the only computational logic is the naming helper
`getConstructId`, which uses lodash `startCase`.  We embed lodash
`startCase` (its behaviour on ASCII strings: `deburr` is the identity
there and the emoji / non-ASCII ranges of its word regexps cannot match),
the resource declarations of both stacks as Lean records, and the entry
point's instantiation of the two stacks.
-/

/-- ASCII lowercase letter test (`[a-z]` of the lodash word regexps). -/
def isLowerCh (c : Char) : Bool := 'a' ≤ c && c ≤ 'z'

/-- ASCII uppercase letter test (`[A-Z]` of the lodash word regexps). -/
def isUpperCh (c : Char) : Bool := 'A' ≤ c && c ≤ 'Z'

/-- ASCII digit test (`\d` of the lodash word regexps). -/
def isDigitCh (c : Char) : Bool := '0' ≤ c && c ≤ '9'

/-- Alphanumeric ASCII character. -/
def isAlnumCh (c : Char) : Bool := isLowerCh c || isUpperCh c || isDigitCh c

/-- Word character `[A-Za-z0-9_]` (JS `\b` boundaries). -/
def isWordCh (c : Char) : Bool := isAlnumCh c || c = Char.ofNat 95

/-- lodash `reHasUnicodeWord`:
`/[a-z][A-Z]|[A-Z]{2}[a-z]|[0-9][a-zA-Z]|[a-zA-Z][0-9]|[^a-zA-Z0-9 ]/`.
True when the string needs the camel-case splitter `unicodeWords`;
otherwise `words` uses the plain `asciiWords` run splitter. -/
def hasUnicodeWord : List Char → Bool
  | [] => false
  | c1 :: rest =>
    (!(isAlnumCh c1 || c1 = ' ')) ||
    (match rest with
     | [] => false
     | c2 :: rest2 =>
       (isLowerCh c1 && isUpperCh c2) ||
       (isDigitCh c1 && (isLowerCh c2 || isUpperCh c2)) ||
       ((isLowerCh c1 || isUpperCh c1) && isDigitCh c2) ||
       (match rest2 with
        | c3 :: _ => isUpperCh c1 && isUpperCh c2 && isLowerCh c3
        | [] => false) ||
       hasUnicodeWord (c2 :: rest2))

/-- Split a nonempty prefix into its initial part and last element:
`splitLast a l = (init of (a :: l), last of (a :: l))`. -/
def splitLast (a : Char) : List Char → List Char × Char
  | [] => ([], a)
  | b :: bs =>
    let p := splitLast b bs
    (a :: p.1, p.2)

/-- Uppercase ordinal body+lookbehind of lodash `rsOrdUpper`
`\d*(?:1ST|2ND|3RD|(?![123])\dTH)`: given the last digit of the digit run
and the characters after the run, return the consumed two-letter suffix
and the remainder when the ordinal alternative matches. -/
def ordSuffixUpper (d : Char) (rest : List Char) : Option (List Char × List Char) :=
  if d = '1' then
    match rest with
    | 'S' :: 'T' :: r => some (['S', 'T'], r)
    | _ => none
  else if d = '2' then
    match rest with
    | 'N' :: 'D' :: r => some (['N', 'D'], r)
    | _ => none
  else if d = '3' then
    match rest with
    | 'R' :: 'D' :: r => some (['R', 'D'], r)
    | _ => none
  else
    match rest with
    | 'T' :: 'H' :: r => some (['T', 'H'], r)
    | _ => none

/-- Lowercase ordinal body of lodash `rsOrdLower`
`\d*(?:1st|2nd|3rd|(?![123])\dth)`. -/
def ordSuffixLower (d : Char) (rest : List Char) : Option (List Char × List Char) :=
  if d = '1' then
    match rest with
    | 's' :: 't' :: r => some (['s', 't'], r)
    | _ => none
  else if d = '2' then
    match rest with
    | 'n' :: 'd' :: r => some (['n', 'd'], r)
    | _ => none
  else if d = '3' then
    match rest with
    | 'r' :: 'd' :: r => some (['r', 'd'], r)
    | _ => none
  else
    match rest with
    | 't' :: 'h' :: r => some (['t', 'h'], r)
    | _ => none

/-- Lookahead `(?=\b|[a-z_])` after an uppercase ordinal: fails exactly when
the next character is an uppercase letter or a digit. -/
def ordLookaheadUpper : List Char → Bool
  | [] => true
  | x :: _ => !(isUpperCh x || isDigitCh x)

/-- Lookahead `(?=\b|[A-Z_])` after a lowercase ordinal: fails exactly when
the next character is a lowercase letter or a digit. -/
def ordLookaheadLower : List Char → Bool
  | [] => true
  | x :: _ => !(isLowerCh x || isDigitCh x)

/-- lodash `unicodeWords` restricted to ASCII input with apostrophes already
stripped (as `startCase` does): the alternation
`[A-Z]?[a-z]+(?=break|[A-Z]|$) | [A-Z]+(?=break|[A-Z][a-z]|$) |
[A-Z]?[a-z]+ | [A-Z]+ | ordUpper | ordLower | \d+`, matched left to right
with greedy backtracking.  Fuel is the structural-recursion bound; every
step consumes at least one character, so `length + 1` fuel is enough. -/
def uwordsF : Nat → List Char → List (List Char)
  | 0, _ => []
  | _ + 1, [] => []
  | fuel + 1, c :: cs =>
    if isLowerCh c then
      let p := List.span isLowerCh cs
      (c :: p.1) :: uwordsF fuel p.2
    else if isUpperCh c then
      match cs with
      | [] => [[c]]
      | c2 :: cs2 =>
        if isLowerCh c2 then
          let p := List.span isLowerCh cs2
          (c :: c2 :: p.1) :: uwordsF fuel p.2
        else if isUpperCh c2 then
          let p := List.span isUpperCh cs2
          match p.2 with
          | [] => [c :: c2 :: p.1]
          | r :: rs =>
            if isLowerCh r then
              let s := splitLast c2 p.1
              let q := List.span isLowerCh rs
              (c :: s.1) :: (s.2 :: r :: q.1) :: uwordsF fuel q.2
            else
              (c :: c2 :: p.1) :: uwordsF fuel p.2
        else
          [c] :: uwordsF fuel cs
    else if isDigitCh c then
      let p := List.span isDigitCh cs
      let s := splitLast c p.1
      match ordSuffixUpper s.2 p.2 with
      | some su =>
        if ordLookaheadUpper su.2 then
          (c :: p.1 ++ su.1) :: uwordsF fuel su.2
        else
          (c :: p.1) :: uwordsF fuel p.2
      | none =>
        match ordSuffixLower s.2 p.2 with
        | some sl =>
          if ordLookaheadLower sl.2 then
            (c :: p.1 ++ sl.1) :: uwordsF fuel sl.2
          else
            (c :: p.1) :: uwordsF fuel p.2
        | none => (c :: p.1) :: uwordsF fuel p.2
    else
      uwordsF fuel cs

/-- lodash `asciiWords` (`string.match(reAsciiWord)`): maximal runs of
characters outside the ASCII separator ranges, i.e. alphanumeric runs.
Only reached when `hasUnicodeWord` is false, so the input is `[a-zA-Z0-9 ]`
only.  Fuel as in `uwordsF`. -/
def asciiWordsF : Nat → List Char → List (List Char)
  | 0, _ => []
  | _ + 1, [] => []
  | fuel + 1, c :: cs =>
    if isAlnumCh c then
      let p := List.span isAlnumCh cs
      (c :: p.1) :: asciiWordsF fuel p.2
    else
      asciiWordsF fuel cs

/-- lodash `words(string)` (no explicit pattern):
`hasUnicodeWord(string) ? unicodeWords(string) : asciiWords(string)`. -/
def wordsOf (l : List Char) : List (List Char) :=
  if hasUnicodeWord l then uwordsF (l.length + 1) l else asciiWordsF (l.length + 1) l

/-- lodash `upperFirst` on the character list of a word (ASCII case map,
which agrees with JS `toUpperCase` on the ASCII range). -/
def upperFirstCh : List Char → List Char
  | [] => []
  | c :: cs => c.toUpper :: cs

/-- lodash `startCase`:
`words(deburr(string).replace(/['’]/g, ''))` folded with
`(result, word, index) => result + (index ? ' ' : '') + upperFirst(word)`.
`deburr` is the identity on ASCII; the apostrophe strip removes `'` (0x27)
and `’` (0x2019). -/
def startCase (s : String) : String :=
  let cleaned := s.data.filter fun c => !(c = Char.ofNat 39 || c = Char.ofNat 8217)
  String.intercalate " " ((wordsOf cleaned).map fun w => String.mk (upperFirstCh w))

/-- `lib/strapi.ts` line 34 and `lib/nextjs.ts` line 34 (both stacks declare
the identical helper):
`getConstructId = (name) => stack-(this.id)-(startCase(name))`. -/
def getConstructId (stackId : String) (name : String) : String :=
  "stack-" ++ stackId ++ "-" ++ startCase name

example : startCase "sg" = "Sg" := by rfl
example : startCase "keyPair" = "Key Pair" := by rfl
example : startCase "AsgCapacityProvider" = "Asg Capacity Provider" := by rfl
example : startCase "asg" = "Asg" := by rfl
example : startCase "strapiContainer" = "Strapi Container" := by rfl
example : startCase "logGroup" = "Log Group" := by rfl
example : getConstructId "strapi" "asg" = "stack-strapi-Asg" := by rfl

/-- One security-group ingress rule: source peer, IP protocol, port
(`securityGroup.addIngressRule(Peer.anyIpv4(), Port.tcp(p))`). -/
structure IngressRule where
  sourceCidr : String
  ipProtocol : String
  port : Nat
deriving DecidableEq

/-- `new SecurityGroup(this, cid, { vpc, description, allowAllOutbound,
securityGroupName })` plus its added ingress rules. -/
structure SecurityGroupDecl where
  constructId : String
  description : String
  allowAllOutbound : Bool
  securityGroupName : String
  ingressRules : List IngressRule
deriving DecidableEq

/-- `new KeyPair(this, cid, { keyPairName })`. -/
structure KeyPairDecl where
  constructId : String
  keyPairName : String
deriving DecidableEq

/-- `new PolicyStatement({ resources, actions })`. -/
structure PolicyStatementDecl where
  resources : List String
  actions : List String
deriving DecidableEq

/-- `new Role(this, cid, { roleName, assumedBy, inlinePolicies,
managedPolicies })`; managed policies by their AWS managed-policy name. -/
structure RoleDecl where
  constructId : String
  roleName : String
  assumedBy : String
  inlinePolicies : List (String × List PolicyStatementDecl)
  managedPolicies : List String
deriving DecidableEq

/-- `new AsgCapacityProvider(this, cid, { autoScalingGroup,
enableManagedTerminationProtection })`; the ASG by its construct id. -/
structure CapacityProviderDecl where
  constructId : String
  autoScalingGroup : String
  enableManagedTerminationProtection : Bool
deriving DecidableEq

/-- `new Cluster(this, cid, { vpc, clusterName })` together with the
providers registered by `cluster.addAsgCapacityProvider(...)`. -/
structure ClusterDecl where
  constructId : String
  clusterName : String
  capacityProviders : List CapacityProviderDecl
deriving DecidableEq

/-- `new LaunchTemplate(this, cid, {...})`; referenced constructs by id,
machine image and instance type by symbolic name. -/
structure LaunchTemplateDecl where
  constructId : String
  launchTemplateName : String
  securityGroup : String
  instanceType : String
  keyPair : String
  role : String
  machineImage : String
  userData : List String
deriving DecidableEq

/-- `new AutoScalingGroup(this, cid, {...})` including the CloudFormation
init config sets (config name to shell commands; all commented out in the
source, hence empty), init options, health check and signals. -/
structure AsgDecl where
  constructId : String
  autoScalingGroupName : String
  desiredCapacity : Nat
  minCapacity : Nat
  maxCapacity : Nat
  terminationPolicies : List String
  instanceMonitoring : String
  initConfigSets : List (String × List String)
  initConfigs : List (String × List String)
  initIncludeUrl : Bool
  initIncludeRole : Bool
  initPrintLog : Bool
  launchTemplate : String
  healthCheckType : String
  healthCheckGraceSeconds : Nat
  signalsTimeoutSeconds : Nat
deriving DecidableEq

/-- `new AwsLogDriver({ streamPrefix, logGroup: LogGroup.fromLogGroupName(
this, cid, name) })`; `streamPrefixValue` models the `streamPrefix` prop. -/
structure LogDriverDecl where
  streamPrefixValue : String
  logGroupConstructId : String
  logGroupName : String
deriving DecidableEq

/-- One entry of `portMappings`. -/
structure PortMapping where
  containerPort : Nat
  hostPort : Nat
  protocol : String
deriving DecidableEq

/-- The container-level `healthCheck` prop (durations in seconds). -/
structure ContainerHealthCheck where
  command : List String
  intervalSeconds : Nat
  timeoutSeconds : Nat
  retries : Nat
  startPeriodSeconds : Nat
deriving DecidableEq

/-- `taskDef.addContainer(cid, {...})`; the image by the ECR repository
name it is pulled from (`ContainerImage.fromEcrRepository(repo)`). -/
structure ContainerDecl where
  constructId : String
  imageEcrRepositoryName : String
  cpu : Nat
  memoryReservationMiB : Nat
  portMappings : List PortMapping
  logging : LogDriverDecl
  containerName : String
  healthCheck : ContainerHealthCheck
deriving DecidableEq

/-- `new Ec2TaskDefinition(this, cid, { family })` with its containers. -/
structure TaskDefDecl where
  constructId : String
  family : String
  containers : List ContainerDecl
deriving DecidableEq

/-- `Repository.fromRepositoryName(this, cid, name)`. -/
structure RepoRefDecl where
  constructId : String
  repositoryName : String
deriving DecidableEq

/-- `new Ec2Service(this, cid, {...})`; cluster and task definition by
construct id. -/
structure ServiceDecl where
  constructId : String
  cluster : String
  taskDefinition : String
  desiredCount : Nat
  serviceName : String
  minHealthyPercent : Nat
  maxHealthyPercent : Nat
deriving DecidableEq

/-- `new CfnOutput(this, cid, { value })`. -/
structure OutputDecl where
  constructId : String
  value : String
deriving DecidableEq

/-- Everything a stack constructor declares, in its construction order:
vpc lookup, security group, key pair, role, cluster, user data, launch
template, ASG, capacity provider (inside `cluster`), log driver, task
definition, repository reference, container (inside `taskDef`), service,
outputs.  `region` is the `env.region` stack prop (the `CDK_DEFAULT_REGION`
environment variable at the entry point); `stackName` is the CloudFormation
stack name `Stack.of(this).stackName`, which defaults to the construct id. -/
structure StackDecl where
  stackId : String
  stackName : String
  region : Option String
  vpcId : String
  securityGroup : SecurityGroupDecl
  keyPair : KeyPairDecl
  role : RoleDecl
  cluster : ClusterDecl
  userData : List String
  launchTemplate : LaunchTemplateDecl
  asg : AsgDecl
  logDriver : LogDriverDecl
  taskDef : TaskDefDecl
  repo : RepoRefDecl
  service : ServiceDecl
  outputs : List OutputDecl
deriving DecidableEq

/-- `lib/strapi.ts`, `StrapiStack` constructor, transcribed declaration by
declaration.  `id` is the construct id passed by the caller, `vpcId` is
`props.vpcId`, `region` is `props.env.region`; the constructor body never
reads `region`.  `Stack.of(this).stackName` defaults to `id` (no explicit
`stackName` prop is given). -/
def strapiStack (id : String) (vpcId : String) (region : Option String) : StackDecl :=
  let cid := getConstructId id
  { stackId := id
    stackName := id
    region := region
    vpcId := vpcId
    securityGroup :=
      { constructId := cid "sg"
        description := "Strapi Security Group"
        allowAllOutbound := true
        securityGroupName := cid "sg"
        ingressRules :=
          [ { sourceCidr := "0.0.0.0/0", ipProtocol := "tcp", port := 22 }
          , { sourceCidr := "0.0.0.0/0", ipProtocol := "tcp", port := 80 }
          , { sourceCidr := "0.0.0.0/0", ipProtocol := "tcp", port := 443 }
          , { sourceCidr := "0.0.0.0/0", ipProtocol := "tcp", port := 1337 } ] }
    keyPair := { constructId := cid "keyPair", keyPairName := cid "keyPair" }
    role :=
      { constructId := cid "role"
        roleName := cid "role"
        assumedBy := "ec2.amazonaws.com"
        inlinePolicies :=
          [ ("RetentionPolicy",
             [ { resources := ["*"], actions := ["logs:PutRetentionPolicy"] } ]) ]
        managedPolicies :=
          [ "AmazonSSMManagedInstanceCore"
          , "CloudWatchAgentServerPolicy"
          , "service-role/AWSAppRunnerServicePolicyForECRAccess"
          , "service-role/AmazonEC2ContainerServiceforEC2Role" ] }
    cluster :=
      { constructId := cid "cluster"
        clusterName := "nextjs_strapi"
        capacityProviders :=
          [ { constructId := cid "AsgCapacityProvider"
              autoScalingGroup := cid "asg"
              enableManagedTerminationProtection := false } ] }
    userData :=
      [ "#!/bin/bash"
      , "yum update -y"
      , "yum install -y aws-cfn-bootstrap"
      , "/opt/aws/bin/cfn-signal --stack " ++ id ++ " --resource " ++ cid "asg"
          ++ " --region us-east-1 --exit-code $?" ]
    launchTemplate :=
      { constructId := cid "instance"
        launchTemplateName := "strapi"
        securityGroup := cid "sg"
        instanceType := "t2.micro"
        keyPair := cid "keyPair"
        role := cid "role"
        machineImage := "EcsOptimizedImage.amazonLinux2023"
        userData :=
          [ "#!/bin/bash"
          , "yum update -y"
          , "yum install -y aws-cfn-bootstrap"
          , "/opt/aws/bin/cfn-signal --stack " ++ id ++ " --resource " ++ cid "asg"
              ++ " --region us-east-1 --exit-code $?" ] }
    asg :=
      { constructId := cid "asg"
        autoScalingGroupName := cid "asg"
        desiredCapacity := 1
        minCapacity := 1
        maxCapacity := 1
        terminationPolicies := ["OLDEST_INSTANCE"]
        instanceMonitoring := "BASIC"
        initConfigSets := [("default", ["config"])]
        initConfigs := [("config", [])]
        initIncludeUrl := true
        initIncludeRole := true
        initPrintLog := true
        launchTemplate := cid "instance"
        healthCheckType := "EC2"
        healthCheckGraceSeconds := 300
        signalsTimeoutSeconds := 300 }
    logDriver :=
      { streamPrefixValue := "strapi"
        logGroupConstructId := cid "logGroup"
        logGroupName := "strapi" }
    taskDef :=
      { constructId := "strapi"
        family := "strapi"
        containers :=
          [ { constructId := cid "strapiContainer"
              imageEcrRepositoryName := "strapi-sample"
              cpu := 256
              memoryReservationMiB := 256
              portMappings := [ { containerPort := 1337, hostPort := 80, protocol := "tcp" } ]
              logging :=
                { streamPrefixValue := "strapi"
                  logGroupConstructId := cid "logGroup"
                  logGroupName := "strapi" }
              containerName := "strapi"
              healthCheck :=
                { command := ["CMD-SHELL", "curl -f http://localhost:1337 || exit 1"]
                  intervalSeconds := 30
                  timeoutSeconds := 5
                  retries := 2
                  startPeriodSeconds := 60 } } ] }
    repo := { constructId := cid "repo", repositoryName := "strapi-sample" }
    service :=
      { constructId := cid "strapi"
        cluster := cid "cluster"
        taskDefinition := "strapi"
        desiredCount := 1
        serviceName := cid "service"
        minHealthyPercent := 0
        maxHealthyPercent := 100 }
    outputs := [ { constructId := "Service Name", value := cid "service" } ] }

/-- `lib/nextjs.ts`, `NextjsStack` constructor, transcribed declaration by
declaration (same shape as `strapiStack`; the launch-template construct is
named from `"template"` instead of `"instance"`). -/
def nextjsStack (id : String) (vpcId : String) (region : Option String) : StackDecl :=
  let cid := getConstructId id
  { stackId := id
    stackName := id
    region := region
    vpcId := vpcId
    securityGroup :=
      { constructId := cid "sg"
        description := "Nextjs Security Group"
        allowAllOutbound := true
        securityGroupName := cid "sg"
        ingressRules :=
          [ { sourceCidr := "0.0.0.0/0", ipProtocol := "tcp", port := 22 }
          , { sourceCidr := "0.0.0.0/0", ipProtocol := "tcp", port := 80 }
          , { sourceCidr := "0.0.0.0/0", ipProtocol := "tcp", port := 443 }
          , { sourceCidr := "0.0.0.0/0", ipProtocol := "tcp", port := 3000 } ] }
    keyPair := { constructId := cid "keyPair", keyPairName := cid "keyPair" }
    role :=
      { constructId := cid "role"
        roleName := cid "role"
        assumedBy := "ec2.amazonaws.com"
        inlinePolicies :=
          [ ("RetentionPolicy",
             [ { resources := ["*"], actions := ["logs:PutRetentionPolicy"] } ]) ]
        managedPolicies :=
          [ "AmazonSSMManagedInstanceCore"
          , "CloudWatchAgentServerPolicy"
          , "service-role/AWSAppRunnerServicePolicyForECRAccess"
          , "service-role/AmazonEC2ContainerServiceforEC2Role" ] }
    cluster :=
      { constructId := cid "cluster"
        clusterName := "nextjs"
        capacityProviders :=
          [ { constructId := cid "AsgCapacityProvider"
              autoScalingGroup := cid "asg"
              enableManagedTerminationProtection := false } ] }
    userData :=
      [ "#!/bin/bash"
      , "yum update -y"
      , "yum install -y aws-cfn-bootstrap"
      , "/opt/aws/bin/cfn-signal --stack " ++ id ++ " --resource " ++ cid "asg"
          ++ " --region us-east-1 --exit-code $?" ]
    launchTemplate :=
      { constructId := cid "template"
        launchTemplateName := "next"
        securityGroup := cid "sg"
        instanceType := "t2.micro"
        keyPair := cid "keyPair"
        role := cid "role"
        machineImage := "EcsOptimizedImage.amazonLinux2023"
        userData :=
          [ "#!/bin/bash"
          , "yum update -y"
          , "yum install -y aws-cfn-bootstrap"
          , "/opt/aws/bin/cfn-signal --stack " ++ id ++ " --resource " ++ cid "asg"
              ++ " --region us-east-1 --exit-code $?" ] }
    asg :=
      { constructId := cid "asg"
        autoScalingGroupName := cid "asg"
        desiredCapacity := 1
        minCapacity := 1
        maxCapacity := 1
        terminationPolicies := ["OLDEST_INSTANCE"]
        instanceMonitoring := "BASIC"
        initConfigSets := [("default", ["config"])]
        initConfigs := [("config", [])]
        initIncludeUrl := true
        initIncludeRole := true
        initPrintLog := true
        launchTemplate := cid "template"
        healthCheckType := "EC2"
        healthCheckGraceSeconds := 300
        signalsTimeoutSeconds := 300 }
    logDriver :=
      { streamPrefixValue := "nextjs"
        logGroupConstructId := cid "logGroup"
        logGroupName := "nextjs" }
    taskDef :=
      { constructId := "nextjs"
        family := "nextjs"
        containers :=
          [ { constructId := cid "nextjsContainer"
              imageEcrRepositoryName := "nextjs-sample"
              cpu := 256
              memoryReservationMiB := 256
              portMappings := [ { containerPort := 3000, hostPort := 80, protocol := "tcp" } ]
              logging :=
                { streamPrefixValue := "nextjs"
                  logGroupConstructId := cid "logGroup"
                  logGroupName := "nextjs" }
              containerName := "nextjs"
              healthCheck :=
                { command := ["CMD-SHELL", "curl -f http://localhost:3000 || exit 1"]
                  intervalSeconds := 30
                  timeoutSeconds := 5
                  retries := 2
                  startPeriodSeconds := 60 } } ] }
    repo := { constructId := cid "repo", repositoryName := "nextjs-sample" }
    service :=
      { constructId := cid "nextjs"
        cluster := cid "cluster"
        taskDefinition := "nextjs"
        desiredCount := 1
        serviceName := cid "service"
        minHealthyPercent := 0
        maxHealthyPercent := 100 }
    outputs := [ { constructId := "Service Name", value := cid "service" } ] }

/-- `bin/infra-sample.ts`: `const commonVpcId = 'vpc-0c92b6779493dfa0c'`. -/
def commonVpcId : String := "vpc-0c92b6779493dfa0c"

/-- `bin/infra-sample.ts`: `new StrapiStack(app, 'strapi', {...commonStackProps,
vpcId: commonVpcId})`; `region` is `process.env.CDK_DEFAULT_REGION`. -/
def strapiApp (region : Option String) : StackDecl :=
  strapiStack "strapi" commonVpcId region

/-- `bin/infra-sample.ts`: `new NextjsStack(app, 'nextjs', {...commonStackProps,
vpcId: commonVpcId})`; `region` is `process.env.CDK_DEFAULT_REGION`. -/
def nextjsApp (region : Option String) : StackDecl :=
  nextjsStack "nextjs" commonVpcId region

/-- ECS deployment lower bound on simultaneously running tasks: during a
rolling update the scheduler may stop tasks down to
`floor(desiredCount * minHealthyPercent / 100)`. -/
def minRunningTasksDuringDeployment (s : ServiceDecl) : Nat :=
  s.desiredCount * s.minHealthyPercent / 100

/-- The per-stack constants of the spec's refinement map: stack id, the
per-stack names (construct names, resource names, family, stream prefix,
security-group description), application port, health-check URL, registry
repository, log group, cluster name, launch template name. -/
structure AppStackParams where
  stackId : String
  sgDescription : String
  appPort : Nat
  clusterName : String
  launchTemplateConstructName : String
  launchTemplateName : String
  streamPrefixValue : String
  logGroupName : String
  taskDefConstructId : String
  family : String
  repositoryName : String
  containerConstructName : String
  containerName : String
  healthCheckUrl : String
  serviceConstructName : String
deriving DecidableEq

/-- The spec's single stack shape, one instance per application:
"Two parallel stack definitions (one per application) each compose the same
sequence of managed-resource declarations against a pre-existing network:
network lookup, security boundary (inbound administrative/HTTP/HTTPS/
application-port traffic, all outbound allowed), key pair, execution
identity, cluster, capacity (launch template driving an auto-scaling group
of fixed size 1, registered as a capacity provider), workload (task
definition with one container, deployed as a service), output (the
service's identifier)" — with only the per-stack constants of
`AppStackParams` substituted. -/
def specAppStack (ps : AppStackParams) (vpcId : String) (region : Option String) : StackDecl :=
  let cid := getConstructId ps.stackId
  { stackId := ps.stackId
    stackName := ps.stackId
    region := region
    vpcId := vpcId
    securityGroup :=
      { constructId := cid "sg"
        description := ps.sgDescription
        allowAllOutbound := true
        securityGroupName := cid "sg"
        ingressRules :=
          [ { sourceCidr := "0.0.0.0/0", ipProtocol := "tcp", port := 22 }
          , { sourceCidr := "0.0.0.0/0", ipProtocol := "tcp", port := 80 }
          , { sourceCidr := "0.0.0.0/0", ipProtocol := "tcp", port := 443 }
          , { sourceCidr := "0.0.0.0/0", ipProtocol := "tcp", port := ps.appPort } ] }
    keyPair := { constructId := cid "keyPair", keyPairName := cid "keyPair" }
    role :=
      { constructId := cid "role"
        roleName := cid "role"
        assumedBy := "ec2.amazonaws.com"
        inlinePolicies :=
          [ ("RetentionPolicy",
             [ { resources := ["*"], actions := ["logs:PutRetentionPolicy"] } ]) ]
        managedPolicies :=
          [ "AmazonSSMManagedInstanceCore"
          , "CloudWatchAgentServerPolicy"
          , "service-role/AWSAppRunnerServicePolicyForECRAccess"
          , "service-role/AmazonEC2ContainerServiceforEC2Role" ] }
    cluster :=
      { constructId := cid "cluster"
        clusterName := ps.clusterName
        capacityProviders :=
          [ { constructId := cid "AsgCapacityProvider"
              autoScalingGroup := cid "asg"
              enableManagedTerminationProtection := false } ] }
    userData :=
      [ "#!/bin/bash"
      , "yum update -y"
      , "yum install -y aws-cfn-bootstrap"
      , "/opt/aws/bin/cfn-signal --stack " ++ ps.stackId ++ " --resource " ++ cid "asg"
          ++ " --region us-east-1 --exit-code $?" ]
    launchTemplate :=
      { constructId := cid ps.launchTemplateConstructName
        launchTemplateName := ps.launchTemplateName
        securityGroup := cid "sg"
        instanceType := "t2.micro"
        keyPair := cid "keyPair"
        role := cid "role"
        machineImage := "EcsOptimizedImage.amazonLinux2023"
        userData :=
          [ "#!/bin/bash"
          , "yum update -y"
          , "yum install -y aws-cfn-bootstrap"
          , "/opt/aws/bin/cfn-signal --stack " ++ ps.stackId ++ " --resource " ++ cid "asg"
              ++ " --region us-east-1 --exit-code $?" ] }
    asg :=
      { constructId := cid "asg"
        autoScalingGroupName := cid "asg"
        desiredCapacity := 1
        minCapacity := 1
        maxCapacity := 1
        terminationPolicies := ["OLDEST_INSTANCE"]
        instanceMonitoring := "BASIC"
        initConfigSets := [("default", ["config"])]
        initConfigs := [("config", [])]
        initIncludeUrl := true
        initIncludeRole := true
        initPrintLog := true
        launchTemplate := cid ps.launchTemplateConstructName
        healthCheckType := "EC2"
        healthCheckGraceSeconds := 300
        signalsTimeoutSeconds := 300 }
    logDriver :=
      { streamPrefixValue := ps.streamPrefixValue
        logGroupConstructId := cid "logGroup"
        logGroupName := ps.logGroupName }
    taskDef :=
      { constructId := ps.taskDefConstructId
        family := ps.family
        containers :=
          [ { constructId := cid ps.containerConstructName
              imageEcrRepositoryName := ps.repositoryName
              cpu := 256
              memoryReservationMiB := 256
              portMappings := [ { containerPort := ps.appPort, hostPort := 80, protocol := "tcp" } ]
              logging :=
                { streamPrefixValue := ps.streamPrefixValue
                  logGroupConstructId := cid "logGroup"
                  logGroupName := ps.logGroupName }
              containerName := ps.containerName
              healthCheck :=
                { command := ["CMD-SHELL", "curl -f " ++ ps.healthCheckUrl ++ " || exit 1"]
                  intervalSeconds := 30
                  timeoutSeconds := 5
                  retries := 2
                  startPeriodSeconds := 60 } } ] }
    repo := { constructId := cid "repo", repositoryName := ps.repositoryName }
    service :=
      { constructId := cid ps.serviceConstructName
        cluster := cid "cluster"
        taskDefinition := ps.taskDefConstructId
        desiredCount := 1
        serviceName := cid "service"
        minHealthyPercent := 0
        maxHealthyPercent := 100 }
    outputs := [ { constructId := "Service Name", value := cid "service" } ] }

/-- The CMS (Strapi) stack's per-stack constants. -/
def strapiParams : AppStackParams :=
  { stackId := "strapi"
    sgDescription := "Strapi Security Group"
    appPort := 1337
    clusterName := "nextjs_strapi"
    launchTemplateConstructName := "instance"
    launchTemplateName := "strapi"
    streamPrefixValue := "strapi"
    logGroupName := "strapi"
    taskDefConstructId := "strapi"
    family := "strapi"
    repositoryName := "strapi-sample"
    containerConstructName := "strapiContainer"
    containerName := "strapi"
    healthCheckUrl := "http://localhost:1337"
    serviceConstructName := "strapi" }

/-- The web front-end (Nextjs) stack's per-stack constants. -/
def nextjsParams : AppStackParams :=
  { stackId := "nextjs"
    sgDescription := "Nextjs Security Group"
    appPort := 3000
    clusterName := "nextjs"
    launchTemplateConstructName := "template"
    launchTemplateName := "next"
    streamPrefixValue := "nextjs"
    logGroupName := "nextjs"
    taskDefConstructId := "nextjs"
    family := "nextjs"
    repositoryName := "nextjs-sample"
    containerConstructName := "nextjsContainer"
    containerName := "nextjs"
    healthCheckUrl := "http://localhost:3000"
    serviceConstructName := "nextjs" }

example : strapiApp none = specAppStack strapiParams commonVpcId none := by decide
example : nextjsApp none = specAppStack nextjsParams commonVpcId none := by decide

/-- C1: for every resource name string, `getConstructId` of each stack
returns `"stack-" ++ stackId ++ "-" ++ startCase name`, and every named
resource declared by either stack (security group, key pair, role, ASG,
repository reference, log-group reference, container construct, service)
has its construct id — and its resource name where one is set — derived by
this convention. -/
theorem naming_convention_and_derived_names :
    (∀ stackId name, getConstructId stackId name =
      "stack-" ++ stackId ++ "-" ++ startCase name) ∧
    ∀ region,
      ((strapiApp region).securityGroup.constructId = getConstructId "strapi" "sg" ∧
       (strapiApp region).securityGroup.securityGroupName = getConstructId "strapi" "sg" ∧
       (strapiApp region).keyPair.constructId = getConstructId "strapi" "keyPair" ∧
       (strapiApp region).keyPair.keyPairName = getConstructId "strapi" "keyPair" ∧
       (strapiApp region).role.constructId = getConstructId "strapi" "role" ∧
       (strapiApp region).role.roleName = getConstructId "strapi" "role" ∧
       (strapiApp region).asg.constructId = getConstructId "strapi" "asg" ∧
       (strapiApp region).asg.autoScalingGroupName = getConstructId "strapi" "asg" ∧
       (strapiApp region).repo.constructId = getConstructId "strapi" "repo" ∧
       (strapiApp region).logDriver.logGroupConstructId = getConstructId "strapi" "logGroup" ∧
       (strapiApp region).taskDef.containers.map ContainerDecl.constructId =
         [getConstructId "strapi" "strapiContainer"] ∧
       (strapiApp region).service.constructId = getConstructId "strapi" "strapi" ∧
       (strapiApp region).service.serviceName = getConstructId "strapi" "service") ∧
      ((nextjsApp region).securityGroup.constructId = getConstructId "nextjs" "sg" ∧
       (nextjsApp region).securityGroup.securityGroupName = getConstructId "nextjs" "sg" ∧
       (nextjsApp region).keyPair.constructId = getConstructId "nextjs" "keyPair" ∧
       (nextjsApp region).keyPair.keyPairName = getConstructId "nextjs" "keyPair" ∧
       (nextjsApp region).role.constructId = getConstructId "nextjs" "role" ∧
       (nextjsApp region).role.roleName = getConstructId "nextjs" "role" ∧
       (nextjsApp region).asg.constructId = getConstructId "nextjs" "asg" ∧
       (nextjsApp region).asg.autoScalingGroupName = getConstructId "nextjs" "asg" ∧
       (nextjsApp region).repo.constructId = getConstructId "nextjs" "repo" ∧
       (nextjsApp region).logDriver.logGroupConstructId = getConstructId "nextjs" "logGroup" ∧
       (nextjsApp region).taskDef.containers.map ContainerDecl.constructId =
         [getConstructId "nextjs" "nextjsContainer"] ∧
       (nextjsApp region).service.constructId = getConstructId "nextjs" "nextjs" ∧
       (nextjsApp region).service.serviceName = getConstructId "nextjs" "service") := by
  refine ⟨fun stackId name => rfl, fun region => ?_⟩
  repeat' apply And.intro
  all_goals rfl

/-- C2: in both stacks the auto-scaling group has
minCapacity = maxCapacity = desiredCapacity = 1, it is the auto-scaling
group of the single capacity provider registered on the cluster, and the
ECS service's desired count is 1. -/
theorem fixed_capacity_one_and_capacity_provider :
    ∀ region,
      ((strapiApp region).asg.minCapacity = 1 ∧
       (strapiApp region).asg.maxCapacity = 1 ∧
       (strapiApp region).asg.desiredCapacity = 1 ∧
       (strapiApp region).cluster.capacityProviders.map CapacityProviderDecl.autoScalingGroup =
         [(strapiApp region).asg.constructId] ∧
       (strapiApp region).service.desiredCount = 1) ∧
      ((nextjsApp region).asg.minCapacity = 1 ∧
       (nextjsApp region).asg.maxCapacity = 1 ∧
       (nextjsApp region).asg.desiredCapacity = 1 ∧
       (nextjsApp region).cluster.capacityProviders.map CapacityProviderDecl.autoScalingGroup =
         [(nextjsApp region).asg.constructId] ∧
       (nextjsApp region).service.desiredCount = 1) := by
  intro region
  repeat' apply And.intro
  all_goals rfl

/-- C3: each stack's security group allows all outbound traffic and has
exactly four ingress rules, all TCP from any IPv4 source (`0.0.0.0/0`):
ports 22, 80, 443 and the application port (1337 for the CMS stack, 3000
for the web front-end stack). -/
theorem security_group_ingress_rules :
    ∀ region,
      ((strapiApp region).securityGroup.allowAllOutbound = true ∧
       (strapiApp region).securityGroup.ingressRules =
         [ { sourceCidr := "0.0.0.0/0", ipProtocol := "tcp", port := 22 }
         , { sourceCidr := "0.0.0.0/0", ipProtocol := "tcp", port := 80 }
         , { sourceCidr := "0.0.0.0/0", ipProtocol := "tcp", port := 443 }
         , { sourceCidr := "0.0.0.0/0", ipProtocol := "tcp", port := 1337 } ]) ∧
      ((nextjsApp region).securityGroup.allowAllOutbound = true ∧
       (nextjsApp region).securityGroup.ingressRules =
         [ { sourceCidr := "0.0.0.0/0", ipProtocol := "tcp", port := 22 }
         , { sourceCidr := "0.0.0.0/0", ipProtocol := "tcp", port := 80 }
         , { sourceCidr := "0.0.0.0/0", ipProtocol := "tcp", port := 443 }
         , { sourceCidr := "0.0.0.0/0", ipProtocol := "tcp", port := 3000 } ]) := by
  intro region
  repeat' apply And.intro
  all_goals rfl

/-- C4: each stack's task definition declares exactly one container, and
that container's port mappings are exactly one mapping whose containerPort
is the stack's declared application container port (1337 CMS, 3000 web
front-end) with protocol TCP. -/
theorem single_container_port_mappings :
    ∀ region,
      ((strapiApp region).taskDef.containers.length = 1 ∧
       (strapiApp region).taskDef.containers.map ContainerDecl.portMappings =
         [[ { containerPort := 1337, hostPort := 80, protocol := "tcp" } ]]) ∧
      ((nextjsApp region).taskDef.containers.length = 1 ∧
       (nextjsApp region).taskDef.containers.map ContainerDecl.portMappings =
         [[ { containerPort := 3000, hostPort := 80, protocol := "tcp" } ]]) := by
  intro region
  repeat' apply And.intro
  all_goals rfl

/-- C5: in both stacks the container-level health check has interval 30 s,
timeout 5 s, 2 retries and start period 60 s, and the auto-scaling group's
EC2 health check has a grace period of 5 minutes (300 s). -/
theorem health_check_timing :
    ∀ region,
      ((strapiApp region).taskDef.containers.map
          (fun c => ( c.healthCheck.intervalSeconds
                    , c.healthCheck.timeoutSeconds
                    , c.healthCheck.retries
                    , c.healthCheck.startPeriodSeconds )) = [(30, 5, 2, 60)] ∧
       (strapiApp region).asg.healthCheckType = "EC2" ∧
       (strapiApp region).asg.healthCheckGraceSeconds = 300) ∧
      ((nextjsApp region).taskDef.containers.map
          (fun c => ( c.healthCheck.intervalSeconds
                    , c.healthCheck.timeoutSeconds
                    , c.healthCheck.retries
                    , c.healthCheck.startPeriodSeconds )) = [(30, 5, 2, 60)] ∧
       (nextjsApp region).asg.healthCheckType = "EC2" ∧
       (nextjsApp region).asg.healthCheckGraceSeconds = 300) := by
  intro region
  repeat' apply And.intro
  all_goals rfl

/-- C6: each stack's execution identity is a single role assumable by the
EC2 service principal, with exactly one inline policy whose only statement
grants `logs:PutRetentionPolicy` on all resources, and whose attached
managed policies are exactly `AmazonSSMManagedInstanceCore` (systems
management), `CloudWatchAgentServerPolicy` (monitoring), and the two
container-registry-access policies
`service-role/AWSAppRunnerServicePolicyForECRAccess` and
`service-role/AmazonEC2ContainerServiceforEC2Role` (the ECS container
instance policy, which carries the ECR registry permissions). -/
theorem execution_role_policies :
    ∀ region,
      ((strapiApp region).role.assumedBy = "ec2.amazonaws.com" ∧
       (strapiApp region).role.inlinePolicies =
         [ ("RetentionPolicy",
            [ { resources := ["*"], actions := ["logs:PutRetentionPolicy"] } ]) ] ∧
       (strapiApp region).role.managedPolicies =
         [ "AmazonSSMManagedInstanceCore"
         , "CloudWatchAgentServerPolicy"
         , "service-role/AWSAppRunnerServicePolicyForECRAccess"
         , "service-role/AmazonEC2ContainerServiceforEC2Role" ]) ∧
      ((nextjsApp region).role.assumedBy = "ec2.amazonaws.com" ∧
       (nextjsApp region).role.inlinePolicies =
         [ ("RetentionPolicy",
            [ { resources := ["*"], actions := ["logs:PutRetentionPolicy"] } ]) ] ∧
       (nextjsApp region).role.managedPolicies =
         [ "AmazonSSMManagedInstanceCore"
         , "CloudWatchAgentServerPolicy"
         , "service-role/AWSAppRunnerServicePolicyForECRAccess"
         , "service-role/AmazonEC2ContainerServiceforEC2Role" ]) := by
  intro region
  repeat' apply And.intro
  all_goals rfl

/-- C7: each stack declares exactly one stack output, and its value is the
name of the deployed ECS service. -/
theorem single_output_service_name :
    ∀ region,
      (strapiApp region).outputs =
        [ { constructId := "Service Name", value := (strapiApp region).service.serviceName } ] ∧
      (nextjsApp region).outputs =
        [ { constructId := "Service Name", value := (nextjsApp region).service.serviceName } ] := by
  intro region
  repeat' apply And.intro
  all_goals rfl

/-- C8: both stacks are instantiated against the same network identifier
and are instances of the one spec-level stack shape `specAppStack`, i.e.
each construction is mapped onto the other by substituting only the
per-stack constants collected in `AppStackParams`. -/
theorem stacks_share_common_shape :
    ∀ region,
      strapiApp region = specAppStack strapiParams commonVpcId region ∧
      nextjsApp region = specAppStack nextjsParams commonVpcId region ∧
      (strapiApp region).vpcId = (nextjsApp region).vpcId := by
  intro region
  repeat' apply And.intro
  all_goals rfl

/-- C9: for every value of the region environment variable supplied at the
entry point, the instance bootstrap user data of both stacks is the same
fixed script whose `cfn-signal` invocation names the literal region
`us-east-1`: the signalling region does not follow the configured target
region. -/
theorem cfn_signal_region_hardcoded :
    ∀ region,
      (strapiApp region).userData =
        [ "#!/bin/bash"
        , "yum update -y"
        , "yum install -y aws-cfn-bootstrap"
        , "/opt/aws/bin/cfn-signal --stack strapi --resource stack-strapi-Asg --region us-east-1 --exit-code $?" ] ∧
      (nextjsApp region).userData =
        [ "#!/bin/bash"
        , "yum update -y"
        , "yum install -y aws-cfn-bootstrap"
        , "/opt/aws/bin/cfn-signal --stack nextjs --resource stack-nextjs-Asg --region us-east-1 --exit-code $?" ] := by
  intro region
  repeat' apply And.intro
  all_goals rfl

/-- C10: both services are declared with minHealthyPercent = 0 and
maxHealthyPercent = 100 while desiredCount = 1, so the deployment floor
`floor(desiredCount * minHealthyPercent / 100)` on running tasks is 0: the
single task may be stopped before its replacement starts. -/
theorem deployment_allows_zero_running_tasks :
    ∀ region,
      ((strapiApp region).service.minHealthyPercent = 0 ∧
       (strapiApp region).service.maxHealthyPercent = 100 ∧
       (strapiApp region).service.desiredCount = 1 ∧
       minRunningTasksDuringDeployment (strapiApp region).service = 0) ∧
      ((nextjsApp region).service.minHealthyPercent = 0 ∧
       (nextjsApp region).service.maxHealthyPercent = 100 ∧
       (nextjsApp region).service.desiredCount = 1 ∧
       minRunningTasksDuringDeployment (nextjsApp region).service = 0) := by
  intro region
  repeat' apply And.intro
  all_goals first
  | rfl
  | simp [minRunningTasksDuringDeployment, strapiApp, nextjsApp, strapiStack, nextjsStack]
